import Mathlib

/-!
Verification of the asted tree-sitter service core: the tree-to-wire
serializer (`src/tree_serialize.rs`) and the request dispatcher
(`src/main.rs`, function `handle`), shallowly embedded in Lean.

Machine integers are modelled as `Nat` (no arithmetic in the embedded code
overflows: byte offsets and lengths only). UTF-16 code units are `Nat`s
below 2^16. Fallible operations return `Option`/`Except`.
-/

namespace Asted

/-! ## Syntax-tree data model

`tree_sitter::Node` exposes a kind tag, a byte range, a named flag and an
ordered list of children (`spec.md` §3, and the fields read in
`build_node`). A `tree_sitter::Tree` is identified with its root node. -/

/-- In-memory syntax tree node produced by the external engine: kind tag,
byte range start, byte range end, named flag, ordered children. -/
inductive TSNode where
  | node (kind : String) (startByte : Nat) (endByte : Nat)
      (named : Bool) (children : List TSNode)

def TSNode.kind : TSNode → String
  | .node k _ _ _ _ => k

def TSNode.startByte : TSNode → Nat
  | .node _ s _ _ _ => s

def TSNode.endByte : TSNode → Nat
  | .node _ _ e _ _ => e

def TSNode.named : TSNode → Bool
  | .node _ _ _ n _ => n

def TSNode.children : TSNode → List TSNode
  | .node _ _ _ _ cs => cs

/-! ## Wire format (`tree_serialize.rs`)

A flatbuffers `Node` record carries kind, a `Location` (start, end), a
vector of child nodes, the named flag, and an optional text vector of
UTF-16 code units. `FileResponse` wraps the root node. -/

/-- Serialized wire node, mirroring the flatbuffers `Node` table built by
`build_node`: kind string, location (start, end), children vector, named
flag, optional text vector. -/
inductive WireNode where
  | node (kind : String) (startByte : Nat) (endByte : Nat)
      (children : List WireNode) (named : Bool) (text : Option (List Nat))

def WireNode.kind : WireNode → String
  | .node k _ _ _ _ _ => k

def WireNode.startByte : WireNode → Nat
  | .node _ s _ _ _ _ => s

def WireNode.endByte : WireNode → Nat
  | .node _ _ e _ _ _ => e

def WireNode.children : WireNode → List WireNode
  | .node _ _ _ cs _ _ => cs

def WireNode.named : WireNode → Bool
  | .node _ _ _ _ n _ => n

def WireNode.text : WireNode → Option (List Nat)
  | .node _ _ _ _ _ t => t

/-- Serialized `FileResponse` envelope: wraps the root wire node. -/
structure FileResponseW where
  tree : WireNode

mutual

/-- Embedding of `build_node` (`tree_serialize.rs:25-54`): emit kind,
location `(start_byte, end_byte)`, the recursively built child vector, the
named flag, and — exactly when the child vector is empty — a text vector.
The Rust code serializes the whole `text` buffer there (not the slice
`text[start..end]`). -/
def buildNode (text : List Nat) : TSNode → WireNode
  | .node k s e n cs =>
    let childVec := buildNodes text cs
    .node k s e childVec n (if childVec.length = 0 then some text else none)

/-- Child vector of `build_node`: `node.children(..).map(build_node)`. -/
def buildNodes (text : List Nat) : List TSNode → List WireNode
  | [] => []
  | t :: ts => buildNode text t :: buildNodes text ts

end

/-- Embedding of `serialize` (`tree_serialize.rs:7-23`): build the root
node and wrap it in a `FileResponse` envelope. -/
def serialize (text : List Nat) (tree : TSNode) : FileResponseW :=
  { tree := buildNode text tree }

mutual

/-- Wire-format decoder (written from the spec side of the round-trip
property, §8 of spec.md): read back kind, range, named flag and the child
vector of a serialized node, dropping the text payload. -/
def decodeNode : WireNode → TSNode
  | .node k s e cs n _ => .node k s e n (decodeNodes cs)

/-- Decoder for a serialized child vector. -/
def decodeNodes : List WireNode → List TSNode
  | [] => []
  | w :: ws => decodeNode w :: decodeNodes ws

end

/-- Decode a serialized `FileResponse` back to a node graph. -/
def decodeResponse (r : FileResponseW) : TSNode :=
  decodeNode r.tree

/-! ## URI model (the `url` crate as used in `main.rs`)

`Url::parse` requires an absolute URI `scheme ":" rest` where the scheme
is a nonempty run of `[A-Za-z][A-Za-z0-9+.-]*` before the first colon
(schemes are normalized to lower case); a bare filesystem path such as
`/tmp/a.ts` has no such prefix and fails to parse. After `scheme://` the
host extends to the next `/`; otherwise there is no host part.
`Url::to_file_path` fails on a `file:` URI whose host is nonempty and not
`localhost`. -/

/-- Parsed URI: scheme (lower-cased), host (empty string when absent), and
path. -/
structure Url where
  scheme : String
  host : String
  path : String
deriving DecidableEq

/-- Characters allowed in a URI scheme after the first. -/
def isSchemeChar (c : Char) : Bool :=
  c.isAlphanum || c = '+' || c = '-' || c = '.'

/-- Split a character list at the first colon: the characters before it
and the characters after it. Fails when there is no colon. -/
def splitColon : List Char → Option (List Char × List Char)
  | [] => none
  | c :: cs =>
    if c = ':' then some ([], cs)
    else (splitColon cs).map (fun p => (c :: p.1, p.2))

/-- Split an authority-and-path character list at the first slash: the
host characters and the remainder (beginning with the slash, if any). -/
def splitHost : List Char → List Char × List Char
  | [] => ([], [])
  | c :: cs =>
    if c = '/' then ([], c :: cs)
    else
      let (h, r) := splitHost cs
      (c :: h, r)

/-- Parse the part after `scheme:`: a leading `//` introduces a host that
runs to the next slash; otherwise there is no host and everything is
path. -/
def parseAfterScheme (rest : List Char) : String × String :=
  match rest with
  | '/' :: '/' :: more =>
    let (h, p) := splitHost more
    (String.mk h, String.mk p)
  | _ => ("", String.mk rest)

/-- Embedding of `Url::parse` as used by `handle`: require a valid scheme
before the first colon (nonempty, alphabetic first character), lower-case
it, and split the remainder into host and path. -/
def parseUrl (s : String) : Option Url :=
  match splitColon s.data with
  | none => none
  | some (schemeChars, rest) =>
    match schemeChars with
    | [] => none
    | c0 :: cs =>
      if c0.isAlpha && cs.all isSchemeChar then
        let (host, path) := parseAfterScheme rest
        some { scheme := String.mk ((c0 :: cs).map Char.toLower)
               host := host
               path := path }
      else none

/-- Embedding of `Url::to_file_path` for `file:` URIs (unix): succeeds
with the URI path exactly when the host is empty or `localhost`. -/
def toFilePath (u : Url) : Option String :=
  if u.host = "" || u.host = "localhost" then some u.path else none

/-! ## Filesystem and parser-engine model -/

/-- What the dispatcher can observe about a path: a directory, a regular
file (whose read yields `some` contents, or `none` when the read fails
mid-way), or nothing at all. -/
inductive FsEntry where
  | dir
  | file (content : Option String)
  | absent
deriving DecidableEq

/-- Embedding of `Path::is_dir`. -/
def FsEntry.isDir : FsEntry → Bool
  | .dir => true
  | _ => false

/-- Embedding of the fact that a path `is_file`. -/
def FsEntry.isRegularFile : FsEntry → Bool
  | .file _ => true
  | _ => false

/-- Embedding of `fs::read_to_string`: defined only on regular files whose
read succeeds. -/
def FsEntry.readToString : FsEntry → Option String
  | .file c => c
  | _ => none

/-- A filesystem is a map from resolved path strings to entries. -/
def FileSystem : Type := String → FsEntry

/-- Engine capability (§6 of spec.md): given the configured language, the
text in 16-bit code units, and an optional seed tree, produce a tree.
`tree_sitter::Parser::parse_utf16` itself returns `None` when no language
has been set on the parser; that case is handled in `parseUtf16`. -/
def Engine : Type := String → List Nat → Option TSNode → TSNode

/-- Embedding of `Parser::parse_utf16`: the parser state is the configured
language (`none` before any successful `set_language`); parsing with no
language set returns `none`, otherwise it defers to the external engine. -/
def parseUtf16 (engine : Engine) (parser : Option String)
    (text : List Nat) (oldTree : Option TSNode) : Option TSNode :=
  match parser with
  | none => none
  | some lang => some (engine lang text oldTree)

/-- Embedding of `str::encode_utf16` for one character: code points below
`0x10000` are one unit, the rest are a surrogate pair. -/
def encodeUtf16Char (c : Char) : List Nat :=
  let n := c.toNat
  if n < 0x10000 then [n]
  else
    let m := n - 0x10000
    [0xD800 + m / 0x400, 0xDC00 + m % 0x400]

/-- Embedding of `text.encode_utf16().collect::<Vec<u16>>()`. -/
def encodeUtf16 (s : String) : List Nat :=
  s.data.flatMap encodeUtf16Char

/-! ## Session state, requests, errors (`main.rs`) -/

/-- Session `State`: the parser (its configured language, if any) and the
file table mapping resolved paths to cached trees. The Rust `HashMap` is
modelled as an association list whose insert replaces the old entry. -/
structure ServerState where
  parser : Option String
  files : List (String × TSNode)

/-- Embedding of `HashMap::get` on the file table. -/
def lookupFile (files : List (String × TSNode)) (path : String) :
    Option TSNode :=
  match files with
  | [] => none
  | (k, v) :: rest => if k = path then some v else lookupFile rest path

/-- Embedding of `HashMap::insert` on the file table: replaces any entry for the same
key. -/
def insertFile (files : List (String × TSNode)) (path : String)
    (tree : TSNode) : List (String × TSNode) :=
  (path, tree) :: files.filter (fun p => !(p.1 == path))

/-- Decoded request envelope: the flatbuffers `root_as_request` either
fails (malformed bytes) or yields one of the tagged union variants
`InitRequest { lang }`, `FileRequest { path }`, or an unrecognized tag. -/
inductive Request where
  | malformed
  | init (lang : String)
  | file (location : String)
  | unrecognized

/-- Errors surfaced by `handle`: the three variants of the `Error` enum in
`main.rs`, plus the `anyhow` context errors attached with `.context(..)`
(request decode failure, URI parse failure, read failure, parse failure,
language-load failure). -/
inductive HandleError where
  | contextErr (msg : String)
  | unknownCommand (msg : String)
  | unknownLanguage (msg : String)
  | unknownFile (msg : String)
deriving DecidableEq

/-- The kind of an error, disregarding its message: which `Error` variant
(or the `anyhow` catch-all) it is. -/
inductive ErrKind where
  | contextErr
  | unknownCommand
  | unknownLanguage
  | unknownFile
deriving DecidableEq

def HandleError.kind : HandleError → ErrKind
  | .contextErr _ => .contextErr
  | .unknownCommand _ => .unknownCommand
  | .unknownLanguage _ => .unknownLanguage
  | .unknownFile _ => .unknownFile

/-- Successful responses: the empty body returned by `InitRequest`, or the
serialized tree returned by `FileRequest`. -/
inductive HandleResponse where
  | emptyOk
  | fileOk (bytes : FileResponseW)

/-- Embedding of `handle` (`main.rs:66-149`), parameterized by the
external engine and the filesystem. Returns the state after the request
together with the result. Mirrors the source order: decode the envelope;
dispatch on the tag; for `InitRequest` accept exactly `"typescript"`; for
`FileRequest` parse the URI, require the `file` scheme, convert to a file
path, reject directories and missing files, read, re-encode to UTF-16,
parse with the cached tree as seed, serialize, and store the new tree. -/
def handle (engine : Engine) (fs : FileSystem) (s : ServerState)
    (req : Request) : ServerState × Except HandleError HandleResponse :=
  match req with
  | .malformed => (s, .error (.contextErr "Failed to parse request"))
  | .unrecognized =>
    (s, .error (.unknownCommand "The server does not understand this command!"))
  | .init lang =>
    if lang = "typescript" then
      ({ s with parser := some "typescript" }, .ok .emptyOk)
    else
      (s, .error (.unknownLanguage ("Unsupported language: " ++ lang)))
  | .file location =>
    match parseUrl location with
    | none => (s, .error (.contextErr "Failed to parse URI"))
    | some uri =>
      if uri.scheme ≠ "file" then
        (s, .error (.unknownFile
          ("Unsupported URI scheme: \"" ++ uri.scheme ++ "\"")))
      else
        match toFilePath uri with
        | none =>
          (s, .error (.unknownFile ("Invalid file path: " ++ uri.path)))
        | some path =>
          if (fs path).isDir then
            (s, .error (.unknownFile (path ++ " is a directory!")))
          else if !(fs path).isRegularFile then
            (s, .error (.unknownFile ("File not found: " ++ path)))
          else
            match (fs path).readToString with
            | none => (s, .error (.contextErr "Error reading file"))
            | some text =>
              let utf16Text := encodeUtf16 text
              match parseUtf16 engine s.parser utf16Text
                  (lookupFile s.files path) with
              | none => (s, .error (.contextErr "Error parsing file"))
              | some tree =>
                ({ s with files := insertFile s.files path tree },
                  .ok (.fileOk (serialize utf16Text tree)))

/-! ## Concrete demonstration objects -/

/-- An engine producing a fixed single-node tree, for concrete runs. -/
def demoEngine : Engine :=
  fun _ text _ => .node "program" 0 (2 * text.length) true []

/-- A filesystem holding one readable file at `/tmp/a.ts`. -/
def demoFs : FileSystem :=
  fun p => if p = "/tmp/a.ts" then .file (some "hi") else .absent

/-- A filesystem holding a directory at `/etc` and nothing else. -/
def demoFsDir : FileSystem :=
  fun p => if p = "/etc" then .dir else .absent

/-- A session state whose parser is configured for typescript. -/
def demoState : ServerState :=
  { parser := some "typescript", files := [] }

/-- The tree `demoEngine` produces for the two-unit text `hi`. -/
def demoTree1 : TSNode :=
  .node "program" 0 4 true []

/-- State `demoState` after caching `demoTree1` for `/tmp/a.ts`. -/
def demoState1 : ServerState :=
  { demoState with files := insertFile demoState.files "/tmp/a.ts" demoTree1 }

/-- State `demoState1` after caching `demoTree1` for `/tmp/a.ts` again. -/
def demoState2 : ServerState :=
  { demoState with
      files := insertFile (insertFile demoState.files "/tmp/a.ts" demoTree1)
        "/tmp/a.ts" demoTree1 }

/-- A fresh session state: no language configured, empty file table. -/
def demoStateUnconfigured : ServerState :=
  { parser := none, files := [] }

/-! ## Helper lemmas -/

/-- Looking up a path right after inserting it yields the inserted tree. -/
theorem lookupFile_insertFile_self (files : List (String × TSNode))
    (path : String) (t : TSNode) :
    lookupFile (insertFile files path t) path = some t := by
  simp [insertFile, lookupFile]

mutual

/-- Decoding a built node recovers the original node. -/
theorem decodeNode_buildNode (text : List Nat) :
    ∀ t : TSNode, decodeNode (buildNode text t) = t
  | .node k s e n cs => by
    simp only [buildNode, decodeNode]
    rw [decodeNodes_buildNodes text cs]

/-- Decoding a built child vector recovers the original children. -/
theorem decodeNodes_buildNodes (text : List Nat) :
    ∀ ts : List TSNode, decodeNodes (buildNodes text ts) = ts
  | [] => rfl
  | t :: ts => by
    simp only [buildNodes, decodeNodes]
    rw [decodeNode_buildNode text t, decodeNodes_buildNodes text ts]

end

/-! ## Claims -/

/-- C1: evaluation of `build_node` at a failing input. A leaf with byte
range `[0, 1)` over the three-unit UTF-16 text `"hi!"` carries the whole
text as its payload: the payload is not the slice covered by the range,
and its length (3) does not match `end - start` (1). -/
theorem C1_leaf_embeds_whole_text :
    (buildNode [104, 105, 33] (.node "identifier" 0 1 true [])).text
      = some [104, 105, 33] ∧
    ([104, 105, 33] : List Nat).take (1 - 0) ≠ [104, 105, 33] ∧
    ([104, 105, 33] : List Nat).length ≠ 1 - 0 := by
  refine ⟨rfl, by decide, by decide⟩

/-- C6: round trip of the serializer. Decoding `serialize text T`
reconstructs a node graph equal to `T`: same kind, same `[start, end)`
range, same named flag, and the same child ordering and topology. -/
theorem C6_serialize_roundtrip (text : List Nat) (t : TSNode) :
    decodeResponse (serialize text t) = t :=
  decodeNode_buildNode text t

/-- C2 counterexample: a bare filesystem path is not normalized and
processed. With a configured parser and a readable file at `/tmp/a.ts`,
the request with location `/tmp/a.ts` (no URI scheme) is rejected with the
URI-parse failure instead of being processed. -/
theorem C2_bare_path_rejected :
    handle demoEngine demoFs demoState (.file "/tmp/a.ts")
      = (demoState, .error (.contextErr "Failed to parse URI")) := by
  rfl

/-- C2 amended: a FileRequest whose location does not parse as a URI — in
particular any bare filesystem path — is rejected with the URI-parse
failure and leaves the state unchanged; bare paths are never normalized to
a file identity. -/
theorem C2_amended_unparsable_location_rejected (engine : Engine)
    (fs : FileSystem) (s : ServerState) (loc : String)
    (h : parseUrl loc = none) :
    handle engine fs s (.file loc)
      = (s, .error (.contextErr "Failed to parse URI")) := by
  simp [handle, h]

/-- C2 amended, witnessed at the bare path `/tmp/a.ts`. -/
theorem C2_amended_witness :
    parseUrl "/tmp/a.ts" = none ∧
    handle demoEngine demoFs demoState (.file "/tmp/a.ts")
      = (demoState, .error (.contextErr "Failed to parse URI")) :=
  ⟨by decide, C2_amended_unparsable_location_rejected demoEngine demoFs
    demoState "/tmp/a.ts" (by decide)⟩

/-- C3 counterexample: the scheme-rejection error is not a distinct error
kind from the file-not-found error. Both the rejection of
`http://example.com/x` and the rejection of the missing file
`file:///tmp/missing.ts` are the same `Error::UnknownFile` variant. -/
theorem C3_scheme_error_same_kind_as_not_found :
    (handle demoEngine demoFs demoState (.file "http://example.com/x")).2
      = .error (.unknownFile "Unsupported URI scheme: \"http\"") ∧
    (handle demoEngine demoFs demoState (.file "file:///tmp/missing.ts")).2
      = .error (.unknownFile "File not found: /tmp/missing.ts") ∧
    HandleError.kind (.unknownFile "Unsupported URI scheme: \"http\"")
      = HandleError.kind (.unknownFile "File not found: /tmp/missing.ts") := by
  refine ⟨rfl, rfl, rfl⟩

/-- C3 amended: a FileRequest whose location parses as a URI with a
non-`file` scheme is rejected with an `UnknownFile`-kind error — the same
error kind as file-not-found, not a distinct one — whose message includes
the offending scheme; the state, hence the cache, is unchanged. -/
theorem C3_amended_scheme_rejected_with_message (engine : Engine)
    (fs : FileSystem) (s : ServerState) (loc : String) (u : Url)
    (h : parseUrl loc = some u) (hs : u.scheme ≠ "file") :
    handle engine fs s (.file loc)
      = (s, .error (.unknownFile
          ("Unsupported URI scheme: \"" ++ u.scheme ++ "\""))) := by
  simp [handle, h, hs]

/-- C3 amended, witnessed at `http://example.com/x`. -/
theorem C3_amended_witness :
    handle demoEngine demoFs demoState (.file "http://example.com/x")
      = (demoState, .error (.unknownFile
          "Unsupported URI scheme: \"http\"")) :=
  C3_amended_scheme_rejected_with_message demoEngine demoFs demoState
    "http://example.com/x" { scheme := "http", host := "example.com", path := "/x" }
    (by decide) (by decide)

/-- C4 counterexample: a FileRequest before any InitRequest does not
produce a dedicated `EngineNotConfigured` error. With no language
configured and a readable file at `/tmp/a.ts`, the request fails with the
generic parse-failure context error `Error parsing file` — the same
catch-all error kind as, for example, an undecodable envelope — though no
cache entry is created. -/
theorem C4_unconfigured_gives_generic_parse_error :
    handle demoEngine demoFs demoStateUnconfigured (.file "file:///tmp/a.ts")
      = (demoStateUnconfigured, .error (.contextErr "Error parsing file")) ∧
    HandleError.kind (.contextErr "Error parsing file")
      = HandleError.kind (.contextErr "Failed to parse request") := by
  refine ⟨rfl, rfl⟩

/-- C4 amended: a FileRequest on a readable file before any successful
InitRequest fails with the generic parse error `Error parsing file` (there
is no dedicated `EngineNotConfigured` error kind), and the state is
unchanged, so no cache entry is created for the requested file. -/
theorem C4_amended_unconfigured_parse_error_no_cache (engine : Engine)
    (fs : FileSystem) (s : ServerState) (loc : String) (u : Url)
    (path content : String)
    (hp : s.parser = none) (h : parseUrl loc = some u)
    (hs : u.scheme = "file") (hf : toFilePath u = some path)
    (hfs : fs path = .file (some content)) :
    handle engine fs s (.file loc)
      = (s, .error (.contextErr "Error parsing file")) := by
  simp [handle, h, hs, hf, hfs, hp, parseUtf16, FsEntry.isDir,
    FsEntry.isRegularFile, FsEntry.readToString]

/-- C4 amended, witnessed at `file:///tmp/a.ts` on a fresh session. -/
theorem C4_amended_witness :
    handle demoEngine demoFs demoStateUnconfigured (.file "file:///tmp/a.ts")
      = (demoStateUnconfigured, .error (.contextErr "Error parsing file")) :=
  C4_amended_unconfigured_parse_error_no_cache demoEngine demoFs
    demoStateUnconfigured "file:///tmp/a.ts"
    { scheme := "file", host := "", path := "/tmp/a.ts" } "/tmp/a.ts" "hi"
    rfl (by decide) rfl rfl (by decide)

/-- C5 counterexample: the directory error and the missing-file error are
not two distinct error kinds: `/etc` being a directory and
`/tmp/missing.ts` being absent are both rejected with the same
`Error::UnknownFile` variant, differing only in message. -/
theorem C5_dir_and_missing_same_kind :
    (handle demoEngine demoFsDir demoState (.file "file:///etc")).2
      = .error (.unknownFile "/etc is a directory!") ∧
    (handle demoEngine demoFsDir demoState (.file "file:///tmp/missing.ts")).2
      = .error (.unknownFile "File not found: /tmp/missing.ts") ∧
    HandleError.kind (.unknownFile "/etc is a directory!")
      = HandleError.kind (.unknownFile "File not found: /tmp/missing.ts") := by
  refine ⟨rfl, rfl, rfl⟩

/-- C5 amended: a FileRequest whose resolved path is a directory is
rejected with the `UnknownFile`-kind error whose message says it is a
directory, and one whose resolved path is absent is rejected with the
`UnknownFile`-kind error whose message says the file was not found — the
same error kind, distinguished only by the message. -/
theorem C5_amended_dir_and_missing_errors (engine : Engine)
    (fs : FileSystem) (s : ServerState) (loc : String) (u : Url)
    (path : String)
    (h : parseUrl loc = some u) (hs : u.scheme = "file")
    (hf : toFilePath u = some path) :
    (fs path = .dir →
      handle engine fs s (.file loc)
        = (s, .error (.unknownFile (path ++ " is a directory!")))) ∧
    (fs path = .absent →
      handle engine fs s (.file loc)
        = (s, .error (.unknownFile ("File not found: " ++ path)))) := by
  constructor
  · intro hd
    simp [handle, h, hs, hf, hd, FsEntry.isDir]
  · intro ha
    simp [handle, h, hs, hf, ha, FsEntry.isDir, FsEntry.isRegularFile]

/-- C5 amended, witnessed at the directory `file:///etc` and the missing
file `file:///tmp/missing.ts`. -/
theorem C5_amended_witness :
    handle demoEngine demoFsDir demoState (.file "file:///etc")
      = (demoState, .error (.unknownFile "/etc is a directory!")) ∧
    handle demoEngine demoFsDir demoState (.file "file:///tmp/missing.ts")
      = (demoState, .error (.unknownFile "File not found: /tmp/missing.ts")) :=
  ⟨(C5_amended_dir_and_missing_errors demoEngine demoFsDir demoState
      "file:///etc" { scheme := "file", host := "", path := "/etc" } "/etc"
      (by decide) rfl rfl).1 (by decide),
   (C5_amended_dir_and_missing_errors demoEngine demoFsDir demoState
      "file:///tmp/missing.ts"
      { scheme := "file", host := "", path := "/tmp/missing.ts" }
      "/tmp/missing.ts" (by decide) rfl rfl).2 (by decide)⟩

/-- C7: a valid FileRequest re-encodes the text to UTF-16 code units,
passes the cached tree (if any) as the incremental seed, and stores the
new tree, unconditionally replacing the previous entry. After two
successful sequential FileRequests for the same file, the second parse is
seeded with the first tree and only the second tree is reachable from the
cache. -/
theorem C7_reencode_seed_store (engine : Engine) (fs1 fs2 : FileSystem)
    (s : ServerState) (lang loc path c1 c2 : String) (u : Url)
    (t1 t2 : TSNode)
    (hp : s.parser = some lang) (h : parseUrl loc = some u)
    (hs : u.scheme = "file") (hf : toFilePath u = some path)
    (h1 : fs1 path = .file (some c1)) (h2 : fs2 path = .file (some c2))
    (ht1 : t1 = engine lang (encodeUtf16 c1) (lookupFile s.files path))
    (ht2 : t2 = engine lang (encodeUtf16 c2) (some t1)) :
    handle engine fs1 s (.file loc)
      = ({ s with files := insertFile s.files path t1 },
         .ok (.fileOk (serialize (encodeUtf16 c1) t1))) ∧
    handle engine fs2 { s with files := insertFile s.files path t1 }
        (.file loc)
      = ({ s with files := insertFile (insertFile s.files path t1) path t2 },
         .ok (.fileOk (serialize (encodeUtf16 c2) t2))) ∧
    lookupFile (insertFile (insertFile s.files path t1) path t2) path
      = some t2 := by
  refine ⟨?_, ?_, lookupFile_insertFile_self _ _ _⟩
  · simp [handle, h, hs, hf, h1, hp, parseUtf16, ht1, FsEntry.isDir,
      FsEntry.isRegularFile, FsEntry.readToString]
  · simp [handle, h, hs, hf, h2, hp, parseUtf16, ht2,
      lookupFile_insertFile_self, FsEntry.isDir, FsEntry.isRegularFile,
      FsEntry.readToString]

/-- C7, witnessed: two sequential requests for `file:///tmp/a.ts`. -/
theorem C7_witness :
    handle demoEngine demoFs demoState (.file "file:///tmp/a.ts")
      = (demoState1,
         .ok (.fileOk (serialize (encodeUtf16 "hi") demoTree1))) ∧
    handle demoEngine demoFs demoState1 (.file "file:///tmp/a.ts")
      = (demoState2,
         .ok (.fileOk (serialize (encodeUtf16 "hi") demoTree1))) ∧
    lookupFile demoState2.files "/tmp/a.ts" = some demoTree1 :=
  C7_reencode_seed_store demoEngine demoFs demoFs demoState "typescript"
    "file:///tmp/a.ts" "/tmp/a.ts" "hi" "hi"
    { scheme := "file", host := "", path := "/tmp/a.ts" }
    demoTree1 demoTree1
    rfl (by decide) rfl rfl (by decide) (by decide) rfl rfl

/-- C8: an InitRequest with an unsupported language name fails with
`UnknownLanguage` and leaves the session state — in particular the
configured engine — exactly as it was, so a subsequent FileRequest using
the previously configured language still succeeds. -/
theorem C8_unknown_language_no_mutation (engine : Engine)
    (fs : FileSystem) (s : ServerState) (lang lang0 loc path content : String)
    (u : Url)
    (hl : lang ≠ "typescript") (hp : s.parser = some lang0)
    (h : parseUrl loc = some u) (hs : u.scheme = "file")
    (hf : toFilePath u = some path) (hfs : fs path = .file (some content)) :
    handle engine fs s (.init lang)
      = (s, .error (.unknownLanguage ("Unsupported language: " ++ lang))) ∧
    (handle engine fs (handle engine fs s (.init lang)).1 (.file loc)).2
      = .ok (.fileOk (serialize (encodeUtf16 content)
          (engine lang0 (encodeUtf16 content) (lookupFile s.files path)))) := by
  have e1 : handle engine fs s (.init lang)
      = (s, .error (.unknownLanguage ("Unsupported language: " ++ lang))) := by
    simp [handle, hl]
  refine ⟨e1, ?_⟩
  rw [e1]
  simp [handle, h, hs, hf, hfs, hp, parseUtf16, FsEntry.isDir,
    FsEntry.isRegularFile, FsEntry.readToString]

/-- C8, witnessed: `InitRequest "haskell"` on a typescript-configured
session, then a FileRequest for `file:///tmp/a.ts`. -/
theorem C8_witness :
    handle demoEngine demoFs demoState (.init "haskell")
      = (demoState,
         .error (.unknownLanguage "Unsupported language: haskell")) ∧
    (handle demoEngine demoFs
        (handle demoEngine demoFs demoState (.init "haskell")).1
        (.file "file:///tmp/a.ts")).2
      = .ok (.fileOk (serialize (encodeUtf16 "hi")
          (demoEngine "typescript" (encodeUtf16 "hi")
            (lookupFile demoState.files "/tmp/a.ts")))) :=
  C8_unknown_language_no_mutation demoEngine demoFs demoState "haskell"
    "typescript" "file:///tmp/a.ts" "/tmp/a.ts" "hi"
    { scheme := "file", host := "", path := "/tmp/a.ts" }
    (by decide) rfl (by decide) rfl rfl (by decide)

/-- C9: whenever `handle` returns an error — undecodable envelope, unknown
command, unknown language, bad scheme or path, directory, missing file,
read failure, or parse failure — the state it returns is exactly the state
it was given: neither the engine configuration nor the file-tree cache is
mutated. -/
theorem C9_error_preserves_state (engine : Engine) (fs : FileSystem)
    (s : ServerState) (req : Request) (e : HandleError)
    (h : (handle engine fs s req).2 = .error e) :
    (handle engine fs s req).1 = s := by
  cases req with
  | malformed => rfl
  | unrecognized => rfl
  | init lang =>
    by_cases hl : lang = "typescript"
    · simp [handle, hl] at h
    · simp [handle, hl]
  | file loc =>
    simp only [handle] at h ⊢
    repeat' split at h
    all_goals first | rfl | simp_all

/-- C9, witnessed at a malformed request. -/
theorem C9_witness : (handle demoEngine demoFs demoState .malformed).1
    = demoState :=
  C9_error_preserves_state demoEngine demoFs demoState .malformed
    (.contextErr "Failed to parse request") rfl

/-- C10: a FileRequest whose location parses as a `file:` URI that cannot
be converted to a local path (for example one with a remote host) is
rejected with the invalid-file-path error, the state is unchanged, and the
outcome does not depend on the filesystem at all — no file I/O has
happened. -/
theorem C10_invalid_file_path_before_io (engine : Engine)
    (fs fs' : FileSystem) (s : ServerState) (loc : String) (u : Url)
    (h : parseUrl loc = some u) (hs : u.scheme = "file")
    (hf : toFilePath u = none) :
    handle engine fs s (.file loc)
      = (s, .error (.unknownFile ("Invalid file path: " ++ u.path))) ∧
    handle engine fs s (.file loc) = handle engine fs' s (.file loc) := by
  have e : ∀ g : FileSystem, handle engine g s (.file loc)
      = (s, .error (.unknownFile ("Invalid file path: " ++ u.path))) := by
    intro g
    simp [handle, h, hs, hf]
  exact ⟨e fs, (e fs).trans (e fs').symm⟩

/-- C10, witnessed at `file://remote/tmp/a.ts` under two different
filesystems. -/
theorem C10_witness :
    handle demoEngine demoFs demoState (.file "file://remote/tmp/a.ts")
      = (demoState, .error (.unknownFile "Invalid file path: /tmp/a.ts")) ∧
    handle demoEngine demoFs demoState (.file "file://remote/tmp/a.ts")
      = handle demoEngine demoFsDir demoState (.file "file://remote/tmp/a.ts") :=
  C10_invalid_file_path_before_io demoEngine demoFs demoFsDir demoState
    "file://remote/tmp/a.ts"
    { scheme := "file", host := "remote", path := "/tmp/a.ts" }
    (by decide) rfl (by decide)

end Asted
